import Mathlib

/-!
Shallow embedding of `src/reconnectable_ws.rs` (openlimits): the
`ReconnectableWebsocket` resilience wrapper.  Opaque exchange-level types
(`Subscription`, `Response`, callbacks, connections, stream/callback handles)
are modelled as natural numbers; the asynchronous reconnect task is modelled
as a fuel-indexed loop over an environment oracle that supplies the outcome
of each connection construction and each replayed subscribe; callback
invocations are modelled as event lists.
-/

namespace ReconnWs

/-- Opaque `Subscription` value (stored and compared by value). -/
abbrev Subscription := Nat

/-- Opaque websocket response payload. -/
abbrev Response := Nat

/-- Identity of an original caller-supplied callback (`SubscriptionCallback`). -/
abbrev CallbackId := Nat

/-- Opaque connection instance produced by `E::new`. -/
abbrev Connection := Nat

/-- Opaque `CallbackHandle` returned by a successful subscribe. -/
abbrev CallbackHandle := Nat

/-- Opaque stream handle returned by `create_stream` / `create_stream_specific`. -/
abbrev StreamHandle := Nat

/-- Error type `OpenLimitsError`: the code pattern-matches only on `SocketError()`;
every other variant is collapsed into `Other`. -/
inductive OpenLimitsError
  | SocketError
  | Other (code : Nat)
deriving DecidableEq

/-- A message delivered to a subscription callback:
`Result<WebSocketResponse<Response>>`. -/
abbrev RMessage := Except OpenLimitsError Response

instance : DecidableEq RMessage := fun x y =>
  match x, y with
  | Except.error a, Except.error b =>
      if h : a = b then isTrue (by rw [h]) else isFalse (by simp [h])
  | Except.ok a, Except.ok b =>
      if h : a = b then isTrue (by rw [h]) else isFalse (by simp [h])
  | Except.error _, Except.ok _ => isFalse (by simp)
  | Except.ok _, Except.error _ => isFalse (by simp)

/-- Fatal-error test: the guard `if let Err(OpenLimitsError::SocketError()) = message.as_ref()`
in both wrapped callbacks (subscribe path, lines 112-117, and replay path,
lines 56-63). -/
def isFatalSocketError : RMessage → Bool
  | Except.error OpenLimitsError.SocketError => true
  | _ => false

/-- Observable events of one invocation of a wrapped callback. -/
inductive CallbackEvent
  | trigger
  | deliver (cb : CallbackId) (msg : RMessage)
deriving DecidableEq

/-- The wrapped callback closure
`move |message| { if let Err(SocketError()) = message.as_ref() { tx.send(()).ok(); } callback(message); }`
(identical shape in `subscribe` and in the replay inside `instantiate`):
it sends a trigger exactly when the message is the fatal socket error, and
then forwards the message itself to the original callback. -/
def wrappedCallback (cb : CallbackId) (msg : RMessage) : List CallbackEvent :=
  (if isFatalSocketError msg then [CallbackEvent.trigger] else [])
    ++ [CallbackEvent.deliver cb msg]

/-- Extract the message of a delivery event. -/
def deliveredMsg : CallbackEvent → Option RMessage
  | CallbackEvent.deliver _ m => some m
  | CallbackEvent.trigger => none

/-- A registration, `SubscriptionCallbackRegistry` entry:
`(Subscription, SubscriptionCallback)`. -/
abbrev Registration := Subscription × CallbackId

/-- Pass-through operations issued against the currently held connection. -/
inductive ConnOp
  | subscribeOp (s : Subscription)
  | createStreamOp (subs : List Subscription)
  | createStreamSpecificOp (subs : List Subscription)
  | disconnectOp
deriving DecidableEq

/-- State visible through the facade: the subscription registry
(`subscriptions: Arc<Mutex<Vec<_>>>`), the log of operations delegated to the
held connection, and the number of triggers sent on the channel so far. -/
structure FacadeState where
  registry : List Registration
  connOps : List ConnOp
  triggersSent : Nat
deriving DecidableEq

/-- The facade state right after a successful `instantiate`: empty registry,
nothing yet delegated, no trigger sent. -/
def initialFacade : FacadeState :=
  { registry := [], connOps := [], triggersSent := 0 }

/-- Operation `subscribe` (lines 97-119): pushes `(subscription, callback)` onto the
registry, then delegates `websocket.subscribe(subscription, wrapped)` to the
current connection; `connResult` is the value the underlying connection
returns for that delegated call, and it is returned to the caller as is. -/
def subscribe (st : FacadeState) (s : Subscription) (cb : CallbackId)
    (connResult : Except OpenLimitsError CallbackHandle) :
    FacadeState × Except OpenLimitsError CallbackHandle :=
  ({ st with
      registry := st.registry ++ [(s, cb)]
      connOps := st.connOps ++ [ConnOp.subscribeOp s] },
    connResult)

/-- Internal step order of `subscribe`. -/
inductive FacadeStep
  | appendRegistration (s : Subscription) (cb : CallbackId)
  | delegateSubscribe (s : Subscription)
deriving DecidableEq

/-- The statement order inside `subscribe`: first
`self.subscriptions.lock().await.push(..)` (line 105-108), then
`self.websocket.lock().await.subscribe(..)` (line 109-118). -/
def subscribeSteps (s : Subscription) (cb : CallbackId) : List FacadeStep :=
  [FacadeStep.appendRegistration s cb, FacadeStep.delegateSubscribe s]

/-- Operation `create_stream_specific` (lines 86-95): delegates to the current
connection; the registry is untouched. -/
def create_stream_specific (st : FacadeState) (subs : List Subscription)
    (connResult : Except OpenLimitsError StreamHandle) :
    FacadeState × Except OpenLimitsError StreamHandle :=
  ({ st with connOps := st.connOps ++ [ConnOp.createStreamSpecificOp subs] },
    connResult)

/-- Operation `create_stream` (lines 121-130): delegates to the current connection;
the registry is untouched. -/
def create_stream (st : FacadeState) (subs : List Subscription)
    (connResult : Except OpenLimitsError StreamHandle) :
    FacadeState × Except OpenLimitsError StreamHandle :=
  ({ st with connOps := st.connOps ++ [ConnOp.createStreamOp subs] },
    connResult)

/-- Operation `disconnect` (lines 132-134): `self.websocket.lock().await.disconnect()`;
no registry change, no trigger. -/
def disconnect (st : FacadeState) : FacadeState :=
  { st with connOps := st.connOps ++ [ConnOp.disconnectOp] }

/-- Delivery of one message from the live connection to a wrapped callback:
the channel-side effect (trigger count) and the produced events. -/
def deliverMessage (st : FacadeState) (cb : CallbackId) (msg : RMessage) :
    FacadeState × List CallbackEvent :=
  let evs := wrappedCallback cb msg
  ({ st with triggersSent := st.triggersSent + evs.count CallbackEvent.trigger },
    evs)

/-- Snapshot `\x7b subscriptions.lock().await.clone() \x7d` (line 51): the snapshot the
reconnect loop replays is a clone of the registry contents. -/
def snapshot (registry : List Registration) : List Registration :=
  registry

/-- Environment outcome of one pass of the `'reconnection` loop body:
whether both weak upgrades succeed, whether `E::new` succeeds, and the result
of the i-th replayed subscribe of that pass. -/
structure EnvRound where
  upgradeOk : Bool
  constructOk : Bool
  replayOk : Nat → Bool

/-- Primitive actions the reconnect loop performs. -/
inductive LoopAction
  | constructAttempt (ok : Bool)
  | installConnection
  | replaySubscribe (s : Subscription) (ok : Bool)
  | sleepInterval
  | deliverToCallback (cb : CallbackId) (msg : RMessage)
deriving DecidableEq

/-- The replay actions: `subscriptions.iter().map(|(subscription, callback)|
websocket.subscribe(subscription.clone(), wrapped))` followed by `join_all`
(lines 52-68); `i` is the position of the entry in the snapshot. -/
def replayActs (replayOk : Nat → Bool) (snap : List Registration) (i : Nat) :
    List LoopAction :=
  match snap with
  | [] => []
  | c :: rest => LoopAction.replaySubscribe c.1 (replayOk i)
      :: replayActs replayOk rest (i + 1)

/-- Check `.iter().all(|subscription| subscription.is_ok())` over the joined replay
results (lines 69-71). -/
def replayAllOk (replayOk : Nat → Bool) (snap : List Registration) (i : Nat) :
    Bool :=
  match snap with
  | [] => true
  | _ :: rest => replayOk i && replayAllOk replayOk rest (i + 1)

/-- One pass of the `'reconnection: loop` body (lines 41-75).  If both weak
upgrades succeed and `E::new` succeeds, the new connection is installed
(`*websocket = new_websocket`), the registry snapshot is replayed, and on
full success the loop breaks (skipping the sleep); on any replay failure or
construction failure `sleep(reattempt_interval)` runs and the loop repeats;
if an upgrade fails the whole body is skipped (no sleep, no break). -/
def reconnectRound (r : EnvRound) (registry : List Registration) :
    List LoopAction × Bool :=
  if r.upgradeOk then
    if r.constructOk then
      if replayAllOk r.replayOk (snapshot registry) 0 then
        ([LoopAction.constructAttempt true, LoopAction.installConnection]
          ++ replayActs r.replayOk (snapshot registry) 0, true)
      else
        ([LoopAction.constructAttempt true, LoopAction.installConnection]
          ++ replayActs r.replayOk (snapshot registry) 0
          ++ [LoopAction.sleepInterval], false)
    else
      ([LoopAction.constructAttempt false, LoopAction.sleepInterval], false)
  else
    ([], false)

/-- The `'reconnection: loop` run for at most `fuel` passes starting at pass
index `round`; returns the per-pass action lists and whether the loop reached
its `break` (episode success).  The real loop has no fuel: it runs until the
break, possibly forever. -/
def reconnectLoop (fuel : Nat) (env : Nat → EnvRound)
    (registry : List Registration) (round : Nat) :
    List (List LoopAction) × Bool :=
  match fuel with
  | 0 => ([], false)
  | Nat.succ fuel1 =>
    if (reconnectRound (env round) registry).2 then
      ([(reconnectRound (env round) registry).1], true)
    else
      ((reconnectRound (env round) registry).1
          :: (reconnectLoop fuel1 env registry (round + 1)).1,
        (reconnectLoop fuel1 env registry (round + 1)).2)

/-- The trigger channel (`unbounded_channel`): senders held by the facade
(the `tx` field), senders held by the spawned loop task (the `tx.clone()`
moved into the async block at line 38), and queued unit messages. -/
structure TriggerChannel where
  facadeSenders : Nat
  loopTaskSenders : Nat
  queued : Nat
deriving DecidableEq

/-- Receive `rx.recv().await` returns `None` exactly when every sender is dropped and
the queue is empty. -/
def recvObservesClosed (c : TriggerChannel) : Bool :=
  (c.facadeSenders + c.loopTaskSenders == 0) && (c.queued == 0)

/-- Dropping the last strong handle to the wrapper drops the facade-held
`tx`; the clone captured by the spawned task is unaffected. -/
def dropFacadeHandles (c : TriggerChannel) : TriggerChannel :=
  { c with facadeSenders := 0 }

/-- Result of a successful `instantiate`: the held connection, the empty
registry, the channel (facade keeps `tx`, the spawned task keeps
`tx.clone()`), and the spawned reconnect loop. -/
structure ReconnectableWebsocket where
  websocket : Connection
  registry : List Registration
  channel : TriggerChannel
  loopSpawned : Bool
deriving DecidableEq

/-- Operation `instantiate` (lines 27-84): a single `E::new(params).await?` — the
construction oracle is consulted exactly once, at index 0 — and on error that
error is returned at once by `?`; on success the holder, empty registry,
channel and spawned loop are set up. -/
def instantiate (construct : Nat → Except OpenLimitsError Connection) :
    Except OpenLimitsError ReconnectableWebsocket :=
  match construct 0 with
  | Except.error e => Except.error e
  | Except.ok conn =>
      Except.ok
        { websocket := conn
          registry := []
          channel := { facadeSenders := 1, loopTaskSenders := 1, queued := 0 }
          loopSpawned := true }

/-- Subscriptions replayed (in order) by a list of loop actions. -/
def replayedSubs : List LoopAction → List Subscription
  | [] => []
  | LoopAction.replaySubscribe s _ :: rest => s :: replayedSubs rest
  | _ :: rest => replayedSubs rest

/-- The registry produced by a sequence of `subscribe` calls starting from
the state `instantiate` leaves behind; `res` supplies each delegated call's
result (it does not affect the registry). -/
def registryOfCalls (calls : List (Registration × Except OpenLimitsError CallbackHandle)) :
    FacadeState :=
  calls.foldl (fun st c => (subscribe st c.1.1 c.1.2 c.2).1) initialFacade

/-! ### Helper lemmas -/

theorem replayAllOk_of_all_true (ok : Nat → Bool) (h : ∀ i, ok i = true) :
    ∀ (snap : List Registration) (j : Nat), replayAllOk ok snap j = true := by
  intro snap
  induction snap with
  | nil => intro j; rfl
  | cons c rest ih => intro j; simp [replayAllOk, h j, ih (j + 1)]

theorem replayActs_of_all_true (ok : Nat → Bool) (h : ∀ i, ok i = true) :
    ∀ (snap : List Registration) (j : Nat),
      replayActs ok snap j
        = snap.map (fun c => LoopAction.replaySubscribe c.1 true) := by
  intro snap
  induction snap with
  | nil => intro j; rfl
  | cons c rest ih => intro j; simp [replayActs, h j, ih (j + 1)]

theorem replayedSubs_append (l1 l2 : List LoopAction) :
    replayedSubs (l1 ++ l2) = replayedSubs l1 ++ replayedSubs l2 := by
  induction l1 with
  | nil => rfl
  | cons a rest ih => cases a <;> simp [replayedSubs, ih]

theorem replayedSubs_replayActs (ok : Nat → Bool) :
    ∀ (snap : List Registration) (j : Nat),
      replayedSubs (replayActs ok snap j) = snap.map Prod.fst := by
  intro snap
  induction snap with
  | nil => intro j; rfl
  | cons c rest ih => intro j; simp [replayActs, replayedSubs, ih (j + 1)]

theorem mem_replayActs (ok : Nat → Bool) :
    ∀ (snap : List Registration) (j : Nat) (a : LoopAction),
      a ∈ replayActs ok snap j → ∃ s b, a = LoopAction.replaySubscribe s b := by
  intro snap
  induction snap with
  | nil => intro j a h; simp [replayActs] at h
  | cons c rest ih =>
    intro j a h
    simp only [replayActs, List.mem_cons] at h
    rcases h with h | h
    · exact ⟨c.1, ok j, h⟩
    · exact ih (j + 1) a h

theorem reconnectRound_success (r : EnvRound) (regs : List Registration)
    (h1 : r.upgradeOk = true) (h2 : r.constructOk = true)
    (h3 : ∀ i, r.replayOk i = true) :
    reconnectRound r regs
      = ([LoopAction.constructAttempt true, LoopAction.installConnection]
          ++ regs.map (fun c => LoopAction.replaySubscribe c.1 true), true) := by
  simp [reconnectRound, h1, h2, replayAllOk_of_all_true r.replayOk h3,
    replayActs_of_all_true r.replayOk h3, snapshot]

theorem reconnectRound_construct_failure (r : EnvRound) (regs : List Registration)
    (h1 : r.upgradeOk = true) (h2 : r.constructOk = false) :
    reconnectRound r regs
      = ([LoopAction.constructAttempt false, LoopAction.sleepInterval], false) := by
  simp [reconnectRound, h1, h2]

theorem reconnectRound_upgrade_failure (r : EnvRound) (regs : List Registration)
    (h1 : r.upgradeOk = false) :
    reconnectRound r regs = ([], false) := by
  simp [reconnectRound, h1]

theorem reconnectRound_replay_failure (r : EnvRound) (regs : List Registration)
    (h1 : r.upgradeOk = true) (h2 : r.constructOk = true)
    (h3 : replayAllOk r.replayOk (snapshot regs) 0 = false) :
    reconnectRound r regs
      = ([LoopAction.constructAttempt true, LoopAction.installConnection]
          ++ replayActs r.replayOk (snapshot regs) 0
          ++ [LoopAction.sleepInterval], false) := by
  simp [reconnectRound, h1, h2, h3]

theorem reconnectLoop_succ (fuel : Nat) (env : Nat → EnvRound)
    (regs : List Registration) (round : Nat) :
    reconnectLoop (fuel + 1) env regs round
      = if (reconnectRound (env round) regs).2 then
          ([(reconnectRound (env round) regs).1], true)
        else
          ((reconnectRound (env round) regs).1
              :: (reconnectLoop fuel env regs (round + 1)).1,
            (reconnectLoop fuel env regs (round + 1)).2) := rfl

theorem reconnectLoop_retry_shape :
    ∀ (k fuel start : Nat) (env : Nat → EnvRound) (regs : List Registration),
    (∀ r, r < k →
        (env (start + r)).upgradeOk = true ∧ (env (start + r)).constructOk = false) →
    ((env (start + k)).upgradeOk = true ∧ (env (start + k)).constructOk = true
        ∧ ∀ i, (env (start + k)).replayOk i = true) →
    k < fuel →
    reconnectLoop fuel env regs start
      = (List.replicate k
            [LoopAction.constructAttempt false, LoopAction.sleepInterval]
          ++ [[LoopAction.constructAttempt true, LoopAction.installConnection]
               ++ regs.map (fun c => LoopAction.replaySubscribe c.1 true)],
          true) := by
  intro k
  induction k with
  | zero =>
    intro fuel start env regs hfail hsucc hfuel
    obtain ⟨fuel1, rfl⟩ : ∃ f, fuel = f + 1 := ⟨fuel - 1, by omega⟩
    have h0 : (env start).upgradeOk = true ∧ (env start).constructOk = true
        ∧ ∀ i, (env start).replayOk i = true := by simpa using hsucc
    rw [reconnectLoop_succ, reconnectRound_success (env start) regs h0.1 h0.2.1 h0.2.2]
    simp
  | succ k ih =>
    intro fuel start env regs hfail hsucc hfuel
    obtain ⟨fuel1, rfl⟩ : ∃ f, fuel = f + 1 := ⟨fuel - 1, by omega⟩
    have h0 := hfail 0 (by omega)
    rw [Nat.add_zero] at h0
    rw [reconnectLoop_succ, reconnectRound_construct_failure (env start) regs h0.1 h0.2]
    have hrec := ih fuel1 (start + 1) env regs
      (fun r hr => by
        have hx := hfail (r + 1) (by omega)
        have e : start + (r + 1) = start + 1 + r := by omega
        rw [e] at hx
        exact hx)
      (by
        have e : start + (k + 1) = start + 1 + k := by omega
        rw [e] at hsucc
        exact hsucc)
      (by omega)
    simp [hrec, List.replicate_succ]

theorem replayedSubs_reconnectRound (r : EnvRound) (regs : List Registration)
    (h1 : r.upgradeOk = true) (h2 : r.constructOk = true) :
    replayedSubs (reconnectRound r regs).1 = regs.map Prod.fst := by
  by_cases h3 : replayAllOk r.replayOk (snapshot regs) 0
  · simp only [snapshot] at h3
    simp [reconnectRound, h1, h2, h3, replayedSubs, replayedSubs_append,
      replayedSubs_replayActs, snapshot]
  · simp only [Bool.not_eq_true] at h3
    rw [reconnectRound_replay_failure r regs h1 h2 h3]
    simp [replayedSubs, replayedSubs_append, replayedSubs_replayActs, snapshot]

theorem reconnectRound_no_deliver (r : EnvRound) (regs : List Registration)
    (cb : CallbackId) (msg : RMessage) :
    LoopAction.deliverToCallback cb msg ∉ (reconnectRound r regs).1 := by
  intro hmem
  have hrep : LoopAction.deliverToCallback cb msg
      ∈ replayActs r.replayOk (snapshot regs) 0 → False := by
    intro h
    rcases mem_replayActs r.replayOk (snapshot regs) 0 _ h with ⟨s, b, hb⟩
    cases hb
  unfold reconnectRound at hmem
  by_cases h1 : r.upgradeOk
  · by_cases h2 : r.constructOk
    · by_cases h3 : replayAllOk r.replayOk (snapshot regs) 0
      · simp [h1, h2, h3] at hmem
        exact hrep hmem
      · simp [h1, h2, h3] at hmem
        exact hrep hmem
    · simp [h1, h2] at hmem
  · simp [h1] at hmem

theorem reconnectLoop_no_deliver :
    ∀ (fuel round : Nat) (env : Nat → EnvRound) (regs : List Registration)
      (cb : CallbackId) (msg : RMessage),
    LoopAction.deliverToCallback cb msg
      ∉ (reconnectLoop fuel env regs round).1.flatten := by
  intro fuel
  induction fuel with
  | zero => intro round env regs cb msg h; simp [reconnectLoop] at h
  | succ fuel ih =>
    intro round env regs cb msg h
    rw [reconnectLoop_succ] at h
    by_cases hb : (reconnectRound (env round) regs).2
    · simp only [hb, if_true, List.flatten_cons, List.flatten_nil,
        List.append_nil] at h
      exact reconnectRound_no_deliver _ _ cb msg h
    · simp only [hb, Bool.false_eq_true, if_false, List.flatten_cons,
        List.mem_append] at h
      rcases h with h | h
      · exact reconnectRound_no_deliver _ _ cb msg h
      · exact ih (round + 1) env regs cb msg h

theorem count_flatten_replicate (a : LoopAction) (l : List LoopAction) :
    ∀ k : Nat, ((List.replicate k l).flatten).count a = k * l.count a := by
  intro k
  induction k with
  | zero => simp
  | succ k ih =>
    rw [List.replicate_succ, List.flatten_cons, List.count_append, ih, Nat.succ_mul]
    omega

theorem count_constructAttempt_map_replay (b : Bool) (regs : List Registration) :
    (regs.map (fun c => LoopAction.replaySubscribe c.1 true)).count
        (LoopAction.constructAttempt b) = 0 := by
  induction regs with
  | nil => rfl
  | cons c rest ih => simp [List.count_cons, ih]

theorem foldl_subscribe_registry
    (calls : List (Registration × Except OpenLimitsError CallbackHandle)) :
    ∀ st : FacadeState,
    (calls.foldl (fun st c => (subscribe st c.1.1 c.1.2 c.2).1) st).registry
      = st.registry ++ calls.map (fun c => c.1) := by
  induction calls with
  | nil => intro st; simp
  | cons c rest ih =>
    intro st
    simp only [List.foldl_cons, List.map_cons]
    rw [ih]
    simp [subscribe]

theorem registryOfCalls_registry
    (calls : List (Registration × Except OpenLimitsError CallbackHandle)) :
    (registryOfCalls calls).registry = calls.map (fun c => c.1) := by
  rw [registryOfCalls, foldl_subscribe_registry]
  simp [initialFacade]

/-! ### Claim theorems -/

/-- C3: every message delivered to a wrapped callback (whether wrapped by
`subscribe` or by the replay path — both closures are identical) is forwarded
to the original callback unchanged; a trigger is sent on the trigger channel
if and only if the message is the designated fatal `SocketError`; every other
error is forwarded untouched and never causes a trigger. -/
theorem wrappedCallback_forward_and_trigger (cb : CallbackId) (msg : RMessage) :
    ((wrappedCallback cb msg).filterMap deliveredMsg = [msg])
  ∧ (CallbackEvent.trigger ∈ wrappedCallback cb msg ↔ isFatalSocketError msg = true)
  ∧ (∀ e : OpenLimitsError,
        isFatalSocketError (Except.error e) = true ↔ e = OpenLimitsError.SocketError)
  ∧ (∀ resp : Response, isFatalSocketError (Except.ok resp) = false)
  ∧ (∀ st : FacadeState,
        (deliverMessage st cb msg).2 = wrappedCallback cb msg
      ∧ (deliverMessage st cb msg).1.triggersSent
          = st.triggersSent + (if isFatalSocketError msg then 1 else 0)) := by
  refine ⟨?_, ?_, ?_, ?_, ?_⟩
  · cases msg with
    | error e => cases e <;> simp [wrappedCallback, isFatalSocketError, deliveredMsg]
    | ok resp => simp [wrappedCallback, isFatalSocketError, deliveredMsg]
  · cases msg with
    | error e => cases e <;> simp [wrappedCallback, isFatalSocketError]
    | ok resp => simp [wrappedCallback, isFatalSocketError]
  · intro e
    cases e <;> simp [isFatalSocketError]
  · intro resp
    rfl
  · intro st
    refine ⟨rfl, ?_⟩
    cases msg with
    | error e =>
      cases e <;>
        simp [deliverMessage, wrappedCallback, isFatalSocketError, List.count_cons]
    | ok resp =>
      simp [deliverMessage, wrappedCallback, isFatalSocketError, List.count_cons]

/-- C6: the operation `instantiate` consults the construction oracle exactly once (no
retry): a first-construction error is returned directly to the caller with
no facade state built, the result depends only on the first construction
outcome, and on success the facade starts with an empty registry, a trigger
channel whose senders are the facade's `tx` and the clone captured by the
spawned loop task, and the spawned reconnect loop. -/
theorem instantiate_single_attempt :
    (∀ (e : OpenLimitsError) (construct : Nat → Except OpenLimitsError Connection),
        construct 0 = Except.error e → instantiate construct = Except.error e)
  ∧ (∀ construct1 construct2 : Nat → Except OpenLimitsError Connection,
        construct1 0 = construct2 0 → instantiate construct1 = instantiate construct2)
  ∧ (∀ (conn : Connection) (construct : Nat → Except OpenLimitsError Connection),
        construct 0 = Except.ok conn →
        instantiate construct = Except.ok
          { websocket := conn
            registry := []
            channel := { facadeSenders := 1, loopTaskSenders := 1, queued := 0 }
            loopSpawned := true }) := by
  refine ⟨?_, ?_, ?_⟩
  · intro e construct h
    simp [instantiate, h]
  · intro construct1 construct2 h
    simp [instantiate, h]
  · intro conn construct h
    simp [instantiate, h]

/-- Witness for C6 at concrete construction oracles. -/
theorem instantiate_single_attempt_witness :
    instantiate (fun _ => Except.error OpenLimitsError.SocketError)
        = Except.error OpenLimitsError.SocketError
  ∧ instantiate (fun n => if n == 0 then Except.ok 7 else
        Except.error OpenLimitsError.SocketError)
        = instantiate (fun _ => Except.ok 7)
  ∧ instantiate (fun _ => Except.ok 7) = Except.ok
      { websocket := 7
        registry := []
        channel := { facadeSenders := 1, loopTaskSenders := 1, queued := 0 }
        loopSpawned := true } :=
  ⟨instantiate_single_attempt.1 OpenLimitsError.SocketError _ rfl,
   instantiate_single_attempt.2.1 _ _ rfl,
   instantiate_single_attempt.2.2 7 _ rfl⟩

/-- C7: the registry is append-only and never deduplicated: `subscribe`
appends exactly one pair, no operation removes or deduplicates entries, the
snapshot equals the registry contents in subscribe call order, and duplicate
subscriptions are both present and both replayed independently. -/
theorem registry_append_only_no_dedup :
    (∀ (st : FacadeState) (s : Subscription) (cb : CallbackId)
        (res : Except OpenLimitsError CallbackHandle),
        (subscribe st s cb res).1.registry = st.registry ++ [(s, cb)])
  ∧ (∀ (st : FacadeState) (subs : List Subscription)
        (res : Except OpenLimitsError StreamHandle),
        (create_stream st subs res).1.registry = st.registry
      ∧ (create_stream_specific st subs res).1.registry = st.registry)
  ∧ (∀ st : FacadeState, (disconnect st).registry = st.registry)
  ∧ (∀ regs : List Registration, snapshot regs = regs)
  ∧ (∀ calls : List (Registration × Except OpenLimitsError CallbackHandle),
        (registryOfCalls calls).registry = calls.map (fun c => c.1))
  ∧ (∀ (st : FacadeState) (s : Subscription) (cb : CallbackId)
        (res1 res2 : Except OpenLimitsError CallbackHandle),
        (subscribe (subscribe st s cb res1).1 s cb res2).1.registry
          = st.registry ++ [(s, cb), (s, cb)]
      ∧ replayedSubs (reconnectRound ⟨true, true, fun _ => true⟩
            (subscribe (subscribe st s cb res1).1 s cb res2).1.registry).1
          = st.registry.map Prod.fst ++ [s, s]) := by
  refine ⟨?_, ?_, ?_, ?_, ?_, ?_⟩
  · intro st s cb res; rfl
  · intro st subs res; exact ⟨rfl, rfl⟩
  · intro st; rfl
  · intro regs; rfl
  · intro calls; exact registryOfCalls_registry calls
  · intro st s cb res1 res2
    constructor
    · simp [subscribe]
    · rw [replayedSubs_reconnectRound ⟨true, true, fun _ => true⟩ _ rfl rfl]
      simp [subscribe]

/-- C8: the operations `disconnect`, `create_stream`, and `create_stream_specific` leave the
registry unchanged and send no trigger; they only delegate to the current
connection, so nothing they do is ever replayed after a reconnect (a
reconnect round over the resulting registry is unchanged). -/
theorem passthrough_ops_leave_registry :
    (∀ st : FacadeState,
        (disconnect st).registry = st.registry
      ∧ (disconnect st).triggersSent = st.triggersSent
      ∧ (disconnect st).connOps = st.connOps ++ [ConnOp.disconnectOp])
  ∧ (∀ (st : FacadeState) (subs : List Subscription)
        (res : Except OpenLimitsError StreamHandle),
        (create_stream st subs res).1.registry = st.registry
      ∧ (create_stream st subs res).1.triggersSent = st.triggersSent
      ∧ (create_stream st subs res).1.connOps
          = st.connOps ++ [ConnOp.createStreamOp subs]
      ∧ (create_stream st subs res).2 = res)
  ∧ (∀ (st : FacadeState) (subs : List Subscription)
        (res : Except OpenLimitsError StreamHandle),
        (create_stream_specific st subs res).1.registry = st.registry
      ∧ (create_stream_specific st subs res).1.triggersSent = st.triggersSent
      ∧ (create_stream_specific st subs res).1.connOps
          = st.connOps ++ [ConnOp.createStreamSpecificOp subs]
      ∧ (create_stream_specific st subs res).2 = res)
  ∧ (∀ (st : FacadeState) (r : EnvRound) (subs : List Subscription)
        (res : Except OpenLimitsError StreamHandle),
        reconnectRound r (create_stream st subs res).1.registry
          = reconnectRound r st.registry
      ∧ reconnectRound r (create_stream_specific st subs res).1.registry
          = reconnectRound r st.registry
      ∧ reconnectRound r (disconnect st).registry = reconnectRound r st.registry) := by
  refine ⟨?_, ?_, ?_, ?_⟩
  · intro st; exact ⟨rfl, rfl, rfl⟩
  · intro st subs res; exact ⟨rfl, rfl, rfl, rfl⟩
  · intro st subs res; exact ⟨rfl, rfl, rfl, rfl⟩
  · intro st r subs res; exact ⟨rfl, rfl, rfl⟩

/-- C9: the operation `subscribe` appends the registration to the registry strictly before
delegating to the current connection; a delegated-subscribe error is
returned to the caller but the registration is not rolled back, so the
registry is modified even on error and the failed subscription is still part
of every subsequent replay. -/
theorem subscribe_error_keeps_registration :
    (∀ (s : Subscription) (cb : CallbackId),
        subscribeSteps s cb
          = [FacadeStep.appendRegistration s cb, FacadeStep.delegateSubscribe s])
  ∧ (∀ (st : FacadeState) (s : Subscription) (cb : CallbackId)
        (e : OpenLimitsError),
        (subscribe st s cb (Except.error e)).1.registry = st.registry ++ [(s, cb)]
      ∧ (subscribe st s cb (Except.error e)).2 = Except.error e)
  ∧ (∀ (st : FacadeState) (s : Subscription) (cb : CallbackId)
        (e : OpenLimitsError),
        replayedSubs (reconnectRound ⟨true, true, fun _ => true⟩
            (subscribe st s cb (Except.error e)).1.registry).1
          = st.registry.map Prod.fst ++ [s]) := by
  refine ⟨?_, ?_, ?_⟩
  · intro s cb; rfl
  · intro st s cb e; exact ⟨rfl, rfl⟩
  · intro st s cb e
    rw [replayedSubs_reconnectRound ⟨true, true, fun _ => true⟩ _ rfl rfl]
    simp [subscribe]

/-- C1: after a trigger, a reconnect episode whose construction succeeds and
whose replays all succeed resubscribes every registration produced by the
sequence of subscribe calls against the newly installed connection, and the
replay lists them in original subscribe call order. -/
theorem replay_resubscribes_in_call_order
    (calls : List (Registration × Except OpenLimitsError CallbackHandle))
    (env : Nat → EnvRound) (fuel : Nat)
    (h1 : (env 0).upgradeOk = true) (h2 : (env 0).constructOk = true)
    (h3 : ∀ i, (env 0).replayOk i = true) :
    reconnectLoop (fuel + 1) env (registryOfCalls calls).registry 0
      = ([[LoopAction.constructAttempt true, LoopAction.installConnection]
           ++ calls.map (fun c => LoopAction.replaySubscribe c.1.1 true)], true)
  ∧ replayedSubs (reconnectRound (env 0) (registryOfCalls calls).registry).1
      = calls.map (fun c => c.1.1) := by
  have hshape := reconnectLoop_retry_shape 0 (fuel + 1) 0 env
    (registryOfCalls calls).registry
    (fun r hr => absurd hr (Nat.not_lt_zero r))
    (by simpa using And.intro h1 (And.intro h2 h3)) (by omega)
  constructor
  · rw [hshape, registryOfCalls_registry]
    simp [List.map_map, Function.comp]
  · rw [replayedSubs_reconnectRound (env 0) _ h1 h2, registryOfCalls_registry]
    simp [List.map_map, Function.comp]

/-- Witness for C1: three subscribe calls (including a duplicate and one
whose delegated call returned an error) are replayed in call order. -/
theorem replay_resubscribes_in_call_order_witness :
    reconnectLoop 1 (fun _ => ⟨true, true, fun _ => true⟩)
        (registryOfCalls
          [((1, 10), Except.ok 0), ((2, 20), Except.ok 0),
            ((1, 10), Except.error OpenLimitsError.SocketError)]).registry 0
      = ([[LoopAction.constructAttempt true, LoopAction.installConnection,
            LoopAction.replaySubscribe 1 true, LoopAction.replaySubscribe 2 true,
            LoopAction.replaySubscribe 1 true]], true)
  ∧ replayedSubs (reconnectRound ⟨true, true, fun _ => true⟩
        (registryOfCalls
          [((1, 10), Except.ok 0), ((2, 20), Except.ok 0),
            ((1, 10), Except.error OpenLimitsError.SocketError)]).registry).1
      = [1, 2, 1] := by
  have h := replay_resubscribes_in_call_order
    [((1, 10), Except.ok 0), ((2, 20), Except.ok 0),
      ((1, 10), Except.error OpenLimitsError.SocketError)]
    (fun _ => ⟨true, true, fun _ => true⟩) 0 rfl rfl (fun i => rfl)
  exact ⟨by simpa using h.1, by simpa using h.2⟩

/-- C2: if any replay subscribe fails during an episode round, that round
still performs the full replay of the whole snapshot, ends with the
reattempt-interval sleep and reports failure; the loop then restarts the
entire episode (fresh construction plus full replay) at the next round, and
every construction-successful round replays the full snapshot, never only
the previously failed subscriptions. -/
theorem replay_failure_restarts_whole_episode
    (regs : List Registration) (env : Nat → EnvRound) (fuel round : Nat)
    (h1 : (env round).upgradeOk = true) (h2 : (env round).constructOk = true)
    (h3 : replayAllOk (env round).replayOk (snapshot regs) 0 = false) :
    reconnectRound (env round) regs
      = ([LoopAction.constructAttempt true, LoopAction.installConnection]
          ++ replayActs (env round).replayOk (snapshot regs) 0
          ++ [LoopAction.sleepInterval], false)
  ∧ replayedSubs (reconnectRound (env round) regs).1 = regs.map Prod.fst
  ∧ reconnectLoop (fuel + 1) env regs round
      = ((reconnectRound (env round) regs).1
            :: (reconnectLoop fuel env regs (round + 1)).1,
          (reconnectLoop fuel env regs (round + 1)).2)
  ∧ (∀ r2 : EnvRound, r2.upgradeOk = true → r2.constructOk = true →
        replayedSubs (reconnectRound r2 regs).1 = regs.map Prod.fst) := by
  have hfail := reconnectRound_replay_failure (env round) regs h1 h2 h3
  refine ⟨hfail, replayedSubs_reconnectRound _ _ h1 h2, ?_,
    fun r2 hu hc => replayedSubs_reconnectRound r2 regs hu hc⟩
  rw [reconnectLoop_succ, hfail]
  simp

/-- Witness for C2: two registrations, the first replay fails; the round
replays both, sleeps, reports failure, and the loop moves to a fresh round;
a later round in which every replay fails again still replays both. -/
theorem replay_failure_restarts_whole_episode_witness :
    reconnectRound ⟨true, true, fun i => i == 1⟩ [(1, 10), (2, 20)]
      = ([LoopAction.constructAttempt true, LoopAction.installConnection,
          LoopAction.replaySubscribe 1 false, LoopAction.replaySubscribe 2 true,
          LoopAction.sleepInterval], false)
  ∧ replayedSubs (reconnectRound ⟨true, true, fun i => i == 1⟩ [(1, 10), (2, 20)]).1
      = [1, 2]
  ∧ reconnectLoop 1 (fun _ => ⟨true, true, fun i => i == 1⟩) [(1, 10), (2, 20)] 0
      = ([[LoopAction.constructAttempt true, LoopAction.installConnection,
            LoopAction.replaySubscribe 1 false, LoopAction.replaySubscribe 2 true,
            LoopAction.sleepInterval]], false)
  ∧ replayedSubs (reconnectRound ⟨true, true, fun _ => false⟩ [(1, 10), (2, 20)]).1
      = [1, 2] := by
  have h := replay_failure_restarts_whole_episode [(1, 10), (2, 20)]
    (fun _ => ⟨true, true, fun i => i == 1⟩) 0 0 rfl rfl rfl
  exact ⟨by simpa using h.1, by simpa using h.2.1, by simpa using h.2.2.1,
    h.2.2.2 ⟨true, true, fun _ => false⟩ rfl rfl⟩

/-- C4: if construction fails k times before succeeding within an episode,
the loop performs exactly k failed and then one successful construction
attempt, with the reattempt-interval sleep between consecutive attempts (the
trace is exactly k failure-sleep pairs followed by the successful attempt,
the install and the full replay); k is arbitrary (no retry cap), and no
reconnect-internal error is delivered to any registered callback during
these attempts. -/
theorem construction_attempts_and_spacing
    (k fuel : Nat) (env : Nat → EnvRound) (regs : List Registration)
    (hfail : ∀ r, r < k → (env r).upgradeOk = true ∧ (env r).constructOk = false)
    (hsucc : (env k).upgradeOk = true ∧ (env k).constructOk = true
        ∧ ∀ i, (env k).replayOk i = true)
    (hfuel : k < fuel) :
    reconnectLoop fuel env regs 0
      = (List.replicate k
            [LoopAction.constructAttempt false, LoopAction.sleepInterval]
          ++ [[LoopAction.constructAttempt true, LoopAction.installConnection]
               ++ regs.map (fun c => LoopAction.replaySubscribe c.1 true)], true)
  ∧ (reconnectLoop fuel env regs 0).1.flatten.count
        (LoopAction.constructAttempt false) = k
  ∧ (reconnectLoop fuel env regs 0).1.flatten.count
        (LoopAction.constructAttempt true) = 1
  ∧ (∀ (cb : CallbackId) (msg : RMessage),
        LoopAction.deliverToCallback cb msg
          ∉ (reconnectLoop fuel env regs 0).1.flatten) := by
  have hshape := reconnectLoop_retry_shape k fuel 0 env regs
    (by simpa using hfail) (by simpa using hsucc) hfuel
  refine ⟨hshape, ?_, ?_,
    fun cb msg => reconnectLoop_no_deliver fuel 0 env regs cb msg⟩
  · rw [hshape]
    simp [List.count_append, count_flatten_replicate,
      count_constructAttempt_map_replay, List.count_cons]
  · rw [hshape]
    simp [List.count_append, count_flatten_replicate,
      count_constructAttempt_map_replay, List.count_cons]

/-- Witness for C4: two failed construction attempts, then a successful one
followed by the full replay of the single registration; counts are 2 and 1,
and no delivery to a callback occurs. -/
theorem construction_attempts_and_spacing_witness :
    reconnectLoop 3
        (fun r => if r < 2 then ⟨true, false, fun _ => true⟩
          else ⟨true, true, fun _ => true⟩) [(5, 50)] 0
      = ([[LoopAction.constructAttempt false, LoopAction.sleepInterval],
          [LoopAction.constructAttempt false, LoopAction.sleepInterval],
          [LoopAction.constructAttempt true, LoopAction.installConnection,
            LoopAction.replaySubscribe 5 true]], true)
  ∧ (reconnectLoop 3
        (fun r => if r < 2 then ⟨true, false, fun _ => true⟩
          else ⟨true, true, fun _ => true⟩) [(5, 50)] 0).1.flatten.count
        (LoopAction.constructAttempt false) = 2
  ∧ (reconnectLoop 3
        (fun r => if r < 2 then ⟨true, false, fun _ => true⟩
          else ⟨true, true, fun _ => true⟩) [(5, 50)] 0).1.flatten.count
        (LoopAction.constructAttempt true) = 1
  ∧ LoopAction.deliverToCallback 9 (Except.error OpenLimitsError.SocketError)
      ∉ (reconnectLoop 3
          (fun r => if r < 2 then ⟨true, false, fun _ => true⟩
            else ⟨true, true, fun _ => true⟩) [(5, 50)] 0).1.flatten := by
  have h := construction_attempts_and_spacing 2 3
    (fun r => if r < 2 then ⟨true, false, fun _ => true⟩
      else ⟨true, true, fun _ => true⟩)
    [(5, 50)]
    (fun r hr => by simp [hr])
    (by simp)
    (by omega)
  refine ⟨?_, h.2.1, h.2.2.1, h.2.2.2 9 _⟩
  rw [h.1]
  rfl

/-- C10: the spawned reconnect task owns its own clone of the trigger
channel sender (used to build the wrapped replay callbacks), so while the
loop task is alive the channel has at least one live sender and the loop's
receive call can never observe the channel as closed. -/
theorem loop_task_holds_sender :
    (∀ (construct : Nat → Except OpenLimitsError Connection)
        (st : ReconnectableWebsocket),
        instantiate construct = Except.ok st → st.channel.loopTaskSenders = 1)
  ∧ (∀ c : TriggerChannel, 1 ≤ c.loopTaskSenders → recvObservesClosed c = false) := by
  constructor
  · intro construct st h
    unfold instantiate at h
    cases hc : construct 0 with
    | error e => rw [hc] at h; cases h
    | ok conn => rw [hc] at h; cases h; rfl
  · intro c hc
    obtain ⟨m, hm⟩ : ∃ m, c.loopTaskSenders = m + 1 :=
      ⟨c.loopTaskSenders - 1, by omega⟩
    unfold recvObservesClosed
    rw [hm, Nat.add_succ]
    rfl

/-- Witness for C10: the channel after a successful `instantiate` has the
task-held sender, and a channel whose only sender is the task-held one is
not observed as closed. -/
theorem loop_task_holds_sender_witness :
    ({ websocket := 7
       registry := []
       channel := { facadeSenders := 1, loopTaskSenders := 1, queued := 0 }
       loopSpawned := true } : ReconnectableWebsocket).channel.loopTaskSenders = 1
  ∧ recvObservesClosed { facadeSenders := 0, loopTaskSenders := 1, queued := 0 }
      = false :=
  ⟨loop_task_holds_sender.1 (fun _ => Except.ok 7) _ rfl,
   loop_task_holds_sender.2 { facadeSenders := 0, loopTaskSenders := 1, queued := 0 }
     (by decide)⟩

/-- C5 evidence (the claim fails on the code): after a successful
`instantiate`, dropping the facade-held sender (all strong handles released)
leaves the task-held sender clone alive, so the trigger channel is never
observed as closed and the recv-guarded while loop cannot exit; moreover,
once the weak upgrades fail, the inner reconnection loop makes no progress
and never breaks, however many passes it runs. -/
theorem trigger_channel_never_closes_after_drop :
    (∃ st : ReconnectableWebsocket,
        instantiate (fun _ => Except.ok 0) = Except.ok st
      ∧ st.channel.loopTaskSenders = 1
      ∧ recvObservesClosed (dropFacadeHandles st.channel) = false)
  ∧ (∀ (fuel round : Nat) (regs : List Registration),
        (reconnectLoop fuel (fun _ => ⟨false, true, fun _ => true⟩) regs round).2
          = false) := by
  constructor
  · exact ⟨_, rfl, rfl, rfl⟩
  · intro fuel
    induction fuel with
    | zero => intro round regs; rfl
    | succ fuel ih =>
      intro round regs
      rw [reconnectLoop_succ, reconnectRound_upgrade_failure _ _ rfl]
      simp [ih]

end ReconnWs
